import Mathlib

/-!
# Verification of the libssh SCP session state machine (src/libssh/scp.c)

A shallow embedding of the SCP client engine.  The underlying channel
collaborator is modelled by explicit oracle arguments: each `channel_write`
outcome is an `Option Nat` (`none` = `SSH_ERROR`, `some w` = `w` bytes
written), each status-byte `channel_read` outcome is the byte delivered, and
the byte stream feeding `ssh_scp_read_string` is a `List Char`.  Every
operation returns the C return value (an `Int`), the updated session
structure, and the list of channel I/O actions it performed, in order.
-/

namespace LibsshScp

/-- The `SSH_OK` return code, from the public libssh headers (not under src/). -/
def SSH_OK : Int := 0

/-- The `SSH_ERROR` return code, from the public libssh headers (not under src/). -/
def SSH_ERROR : Int := -1

/-- The `SSH_SCP_WRITE` mode constant from the public headers (not under src/);
only its distinctness from `SSH_SCP_READ` matters to scp.c. -/
def SSH_SCP_WRITE : Int := 0

/-- The `SSH_SCP_READ` mode constant from the public headers (not under src/). -/
def SSH_SCP_READ : Int := 1

/-- The `SSH_SCP_REQUEST_NEWFILE` constant from the public headers (not under
src/); scp.c only ever compares it for (in)equality, so only distinctness
from `SSH_SCP_REQUEST_NEWDIR` and from `SSH_ERROR` matters. -/
def SSH_SCP_REQUEST_NEWFILE : Int := 1

/-- The `SSH_SCP_REQUEST_NEWDIR` constant from the public headers (not under src/). -/
def SSH_SCP_REQUEST_NEWDIR : Int := 2

/-- The `scp->state` field: `SSH_SCP_NEW`, `SSH_SCP_WRITE_INITED`,
`SSH_SCP_WRITE_WRITING`, `SSH_SCP_READ_INITED`, `SSH_SCP_READ_REQUESTED`,
`SSH_SCP_READ_READING`, `SSH_SCP_ERROR`. -/
inductive ScpState
  | new
  | writeInited
  | writeWriting
  | readInited
  | readRequested
  | readReading
  | error
  deriving DecidableEq, Repr

/-- The `scp->request_type` values scp.c stores
(`SSH_SCP_REQUEST_NEWFILE` / `SSH_SCP_REQUEST_NEWDIR`). -/
inductive RequestType
  | newFile
  | newDir
  deriving DecidableEq, Repr

/-- The session structure `struct ssh_scp_struct`.  `channelOpen` models `scp->channel != NULL`;
`request_type` is `none` until `ssh_scp_pull_request` first assigns it
(the C field is zero-initialised by `ZERO_STRUCTP`). -/
structure Scp where
  mode : Int
  location : String
  channelOpen : Bool
  state : ScpState
  filelen : Nat
  processed : Nat
  request_mode : Option (List Char)
  request_name : Option (List Char)
  request_type : Option RequestType
  deriving DecidableEq, Repr

/-- One channel action performed by an operation, in order.  `chanWrite`
carries the exact control bytes handed to `channel_write`; `chanWriteData`
records a file-data chunk write of the given length (the data bytes come
from the caller's opaque buffer); `chanRead` records a `channel_read`
request for at most the given number of bytes. -/
inductive ChannelEvent
  | chanOpen
  | chanExec (cmd : String)
  | chanWrite (data : List Char)
  | chanWriteData (len : Nat)
  | chanRead (maxlen : Nat)
  | chanPoll
  deriving DecidableEq, Repr

/-- Result triple of an scp operation: C return value, updated session,
channel actions performed. -/
abbrev Outcome := Int × Scp × List ChannelEvent

/-- Modelled from the spec: `ssh_basename` belongs to this repository but is
not under src/ (scp.c only calls it).  Per the spec it yields the final path
component of the caller-supplied name, with all directory components
stripped. -/
def ssh_basename (name : List Char) : List Char :=
  (name.reverse.takeWhile (fun c => c ≠ '/')).reverse

/-- Formatting with `snprintf` into a `char buffer[bufsize]` keeps at most `bufsize - 1`
characters of the formatted string and null-terminates; the line the caller
subsequently writes (`strlen(buffer)` bytes) is this truncated content. -/
def snprintfBuf (bufsize : Nat) (s : List Char) : List Char :=
  s.take (bufsize - 1)

/-- Size of the `size_t` value space on the reference LP64 platform:
`2 ^ 64` (= 18446744073709551616). -/
def SIZE_T_MOD : Nat := 18446744073709551616

/-- C `size_t` addition: `a + b` wraps modulo `2 ^ 64`. -/
def addSizeT (a b : Nat) : Nat := (a + b) % SIZE_T_MOD

/-- C `size_t` subtraction: `a - b` wraps modulo `2 ^ 64`. -/
def subSizeT (a b : Nat) : Nat := (a + (SIZE_T_MOD - b % SIZE_T_MOD)) % SIZE_T_MOD

/-- Model of `ssh_scp_new` (scp.c:36-59).  `allocOk` is the `malloc` outcome and
`strdupOk` the `strdup` outcome.  `freedPartial` records whether
`ssh_scp_free` was invoked on a partially constructed object. -/
structure NewOutcome where
  scp : Option Scp
  freedPartial : Bool
  deriving DecidableEq, Repr

def ssh_scp_new (allocOk strdupOk : Bool) (mode : Int) (location : String) :
    NewOutcome :=
  if allocOk = false then
    { scp := none, freedPartial := false }
  else if mode ≠ SSH_SCP_WRITE ∧ mode ≠ SSH_SCP_READ then
    { scp := none, freedPartial := true }
  else if strdupOk = false then
    { scp := none, freedPartial := true }
  else
    { scp := some
        { mode := mode, location := location, channelOpen := false,
          state := ScpState.new, filelen := 0, processed := 0,
          request_mode := none, request_name := none, request_type := none },
      freedPartial := false }

/-- Model of `ssh_scp_init` (scp.c:61-98).  `chanNewOk` is the `channel_new` outcome,
`openOk` the `channel_open_session` outcome, `execOk` the
`channel_request_exec` outcome, `statusByte` the byte delivered by the
status `channel_read` (scp.c does not check that read's return value, so
the byte is oracle-supplied in all cases). -/
def ssh_scp_init (scp : Scp) (chanNewOk openOk execOk : Bool)
    (statusByte : Nat) : Outcome :=
  if scp.state ≠ ScpState.new then
    (SSH_ERROR, scp, [])
  else if chanNewOk = false then
    (SSH_ERROR, { scp with state := ScpState.error }, [])
  else
    let scp := { scp with channelOpen := true }
    let cmd := if scp.mode = SSH_SCP_WRITE then "scp -t " ++ scp.location
               else "scp -f " ++ scp.location
    if openOk = false then
      (SSH_ERROR, { scp with state := ScpState.error }, [ChannelEvent.chanOpen])
    else if execOk = false then
      (SSH_ERROR, { scp with state := ScpState.error },
       [ChannelEvent.chanOpen, ChannelEvent.chanExec cmd])
    else if statusByte ≠ 0 then
      (SSH_ERROR, { scp with state := ScpState.error },
       [ChannelEvent.chanOpen, ChannelEvent.chanExec cmd, ChannelEvent.chanRead 1])
    else
      (SSH_OK,
       { scp with state := if scp.mode = SSH_SCP_WRITE then ScpState.writeInited
                           else ScpState.readInited },
       [ChannelEvent.chanOpen, ChannelEvent.chanExec cmd, ChannelEvent.chanRead 1])

/-- Model of `ssh_scp_push_directory` (scp.c:135-159): formats
`D<perms> 0 <basename>\n` into a 1024-byte buffer, writes it, then reads one
status byte. -/
def ssh_scp_push_directory (scp : Scp) (dirname perms : List Char)
    (wres : Option Nat) (statusByte : Nat) : Outcome :=
  if scp.state ≠ ScpState.writeInited then
    (SSH_ERROR, scp, [])
  else
    let dir := ssh_basename dirname
    let line := snprintfBuf 1024 (('D' :: perms) ++ [' ', '0', ' '] ++ dir ++ ['\n'])
    match wres with
    | none => (SSH_ERROR, { scp with state := ScpState.error },
               [ChannelEvent.chanWrite line])
    | some _ =>
      if statusByte ≠ 0 then
        (SSH_ERROR, { scp with state := ScpState.error },
         [ChannelEvent.chanWrite line, ChannelEvent.chanRead 1])
      else
        (SSH_OK, scp, [ChannelEvent.chanWrite line, ChannelEvent.chanRead 1])

/-- Model of `ssh_scp_leave_directory` (scp.c:167-188): writes `E\n` (via `strcpy`,
no truncation), then reads one status byte. -/
def ssh_scp_leave_directory (scp : Scp) (wres : Option Nat)
    (statusByte : Nat) : Outcome :=
  if scp.state ≠ ScpState.writeInited then
    (SSH_ERROR, scp, [])
  else
    match wres with
    | none => (SSH_ERROR, { scp with state := ScpState.error },
               [ChannelEvent.chanWrite ['E', '\n']])
    | some _ =>
      if statusByte ≠ 0 then
        (SSH_ERROR, { scp with state := ScpState.error },
         [ChannelEvent.chanWrite ['E', '\n'], ChannelEvent.chanRead 1])
      else
        (SSH_OK, scp, [ChannelEvent.chanWrite ['E', '\n'], ChannelEvent.chanRead 1])

/-- Model of `ssh_scp_push_file` (scp.c:198-225): formats
`C<perms> <decimal-size> <basename>\n` into a 1024-byte buffer, writes it,
reads one status byte, and on success sets `filelen := size`,
`processed := 0`, state `SSH_SCP_WRITE_WRITING`. -/
def ssh_scp_push_file (scp : Scp) (filename : List Char) (size : Nat)
    (perms : List Char) (wres : Option Nat) (statusByte : Nat) : Outcome :=
  if scp.state ≠ ScpState.writeInited then
    (SSH_ERROR, scp, [])
  else
    let file := ssh_basename filename
    let line := snprintfBuf 1024
      (('C' :: perms) ++ (' ' :: (Nat.repr size).toList) ++ (' ' :: file) ++ ['\n'])
    match wres with
    | none => (SSH_ERROR, { scp with state := ScpState.error },
               [ChannelEvent.chanWrite line])
    | some _ =>
      if statusByte ≠ 0 then
        (SSH_ERROR, { scp with state := ScpState.error },
         [ChannelEvent.chanWrite line, ChannelEvent.chanRead 1])
      else
        (SSH_OK,
         { scp with filelen := size, processed := 0, state := ScpState.writeWriting },
         [ChannelEvent.chanWrite line, ChannelEvent.chanRead 1])

/-- Model of `ssh_scp_write` (scp.c:233-270): clamps `len` to the remaining declared
size — the guard `scp->processed + len > scp->filelen` and the subtraction
are `size_t` arithmetic and wrap modulo `2 ^ 64`, so a `len` of at least
`2 ^ 64 - processed` wraps the sum and skips the clamp — then polls, writes,
accumulates `processed` (also modulo `2 ^ 64`), and when
`processed == filelen` resets the counters and returns to
`SSH_SCP_WRITE_INITED`.  Returns `SSH_OK` on success. -/
def ssh_scp_write (scp : Scp) (len : Nat) (wres : Option Nat) : Outcome :=
  if scp.state ≠ ScpState.writeWriting then
    (SSH_ERROR, scp, [])
  else
    let len := if addSizeT scp.processed len > scp.filelen
               then subSizeT scp.filelen scp.processed else len
    let events := [ChannelEvent.chanPoll, ChannelEvent.chanWriteData len]
    match wres with
    | none => (SSH_ERROR, { scp with state := ScpState.error }, events)
    | some w =>
      let scp := { scp with processed := addSizeT scp.processed w }
      if scp.processed = scp.filelen then
        (SSH_OK,
         { scp with processed := 0, filelen := 0, state := ScpState.writeInited },
         events)
      else
        (SSH_OK, scp, events)

/-- The `while (r < len-1)` loop of `ssh_scp_read_string` (scp.c:284-297).
`fuel` is `len - 1 - r`; the stream running out stands for `channel_read`
returning `SSH_ERROR` or `0` (end of file), both of which make the loop
break with `err = SSH_ERROR`.  `err` carries the would-be return value (the
result of the last `channel_read`, initially `SSH_OK`); the accumulated
buffer content (up to the terminating NUL, newline included) is returned
with it. -/
def read_string_loop : Nat → List Char → Int → List Char → Int × List Char
  | 0, _, err, acc => (err, acc)
  | _ + 1, [], _, acc => (SSH_ERROR, acc)
  | fuel + 1, b :: rest, _, acc =>
    if b = '\n' then ((1 : Int), acc ++ [b])
    else read_string_loop fuel rest 1 (acc ++ [b])

/-- Model of `ssh_scp_read_string` (scp.c:281-300) for a buffer of `len >= 1` bytes:
reads bytes one at a time until `\n`, stream end, or `len - 1` bytes,
null-terminates, and returns the last `channel_read` result. -/
def ssh_scp_read_string (len : Nat) (stream : List Char) : Int × List Char :=
  read_string_loop (len - 1) stream SSH_OK []

/-- Helper splitting a character list at the first occurrence of `c` (the `strchr`
idiom of scp.c: the separator is overwritten by NUL, cutting the buffer in
two); `none` when `c` does not occur before the end of the string. -/
def splitFirst (c : Char) : List Char → Option (List Char × List Char)
  | [] => none
  | x :: xs =>
    if x = c then some ([], xs)
    else
      match splitFirst c xs with
      | none => none
      | some (l, r) => some (x :: l, r)

/-- Model of `strtoull(tmp, NULL, 10)` on the NUL-terminated size field: the leading
decimal digits, 0 when there are none.  (libc also skips leading whitespace
and an optional sign; no field produced by the splits in scp.c starts with
either, and no theorem below depends on that corner.) -/
def strtoull10 (s : List Char) : Nat :=
  (s.takeWhile Char.isDigit).foldl (fun acc c => acc * 10 + (c.toNat - 48)) 0

/-- The `C`/`D` parsing arm of `ssh_scp_pull_request` (scp.c:325-359):
split at the first space (perms start at `&buffer[1]`), at the next space
(size field, fed to `strtoull`), and at the following newline (name).  Any
missing separator, or a leading byte other than `C`/`D` (scp.c:364-368),
is a failure. -/
def parse_control_line (line : List Char) :
    Option (Char × List Char × Nat × List Char) :=
  match line with
  | [] => none
  | c :: _ =>
    if c = 'C' ∨ c = 'D' then
      match splitFirst ' ' line with
      | none => none
      | some (first, afterSp1) =>
        let mode := first.drop 1
        match splitFirst ' ' afterSp1 with
        | none => none
        | some (sizeField, afterSp2) =>
          let size := strtoull10 sizeField
          match splitFirst '\n' afterSp2 with
          | none => none
          | some (name, _) => some (c, mode, size, name)
    else none

/-- Model of `ssh_scp_pull_request` (scp.c:311-377): reads one control line into a
4096-byte buffer and parses it.  On a read failure, a parsing failure, or an
unsupported leading byte the function returns `SSH_ERROR` and the session is
left untouched (scp.c sets no state on these paths).  On success it records
the pending request and moves to `SSH_SCP_READ_REQUESTED`; for a directory
the source executes `scp->filelen = '0';`, assigning the character literal
`'0'` (numeric value 48) to the size_t field. -/
def ssh_scp_pull_request (scp : Scp) (stream : List Char) : Outcome :=
  if scp.state ≠ ScpState.readInited then
    (SSH_ERROR, scp, [])
  else
    let rs := ssh_scp_read_string 4096 stream
    let events := List.replicate
      (rs.2.length + (if rs.1 = SSH_ERROR then 1 else 0)) (ChannelEvent.chanRead 1)
    if rs.1 = SSH_ERROR then
      (SSH_ERROR, scp, events)
    else
      match parse_control_line rs.2 with
      | none => (SSH_ERROR, scp, events)
      | some (kind, mode, size, name) =>
        if kind = 'C' then
          (SSH_SCP_REQUEST_NEWFILE,
           { scp with request_mode := some mode, request_name := some name,
                      filelen := size, request_type := some RequestType.newFile,
                      state := ScpState.readRequested, processed := 0 },
           events)
        else
          (SSH_SCP_REQUEST_NEWDIR,
           { scp with request_mode := some mode, request_name := some name,
                      filelen := 48, request_type := some RequestType.newDir,
                      state := ScpState.readRequested, processed := 0 },
           events)

/-- Model of `ssh_scp_deny_request` (scp.c:387-403): writes byte `0x02`, the reason,
and a newline (through a 4096-byte `snprintf` buffer).  On a write failure
the source returns `SSH_ERROR` without touching `scp->state`; on success the
state returns to `SSH_SCP_READ_INITED` (the counters are not reset). -/
def ssh_scp_deny_request (scp : Scp) (reason : List Char)
    (wres : Option Nat) : Outcome :=
  if scp.state ≠ ScpState.readRequested then
    (SSH_ERROR, scp, [])
  else
    let line := snprintfBuf 4096 (Char.ofNat 2 :: reason ++ ['\n'])
    match wres with
    | none => (SSH_ERROR, scp, [ChannelEvent.chanWrite line])
    | some _ => (SSH_OK, { scp with state := ScpState.readInited },
                 [ChannelEvent.chanWrite line])

/-- Model of `ssh_scp_accept_request` (scp.c:411-427): writes the single byte `0x00`;
on a write failure it returns `SSH_ERROR` without touching `scp->state`; on
success the state becomes `SSH_SCP_READ_READING` for a file request and
`SSH_SCP_READ_INITED` otherwise. -/
def ssh_scp_accept_request (scp : Scp) (wres : Option Nat) : Outcome :=
  if scp.state ≠ ScpState.readRequested then
    (SSH_ERROR, scp, [])
  else
    match wres with
    | none => (SSH_ERROR, scp, [ChannelEvent.chanWrite [Char.ofNat 0]])
    | some _ =>
      if scp.request_type = some RequestType.newFile then
        (SSH_OK, { scp with state := ScpState.readReading },
         [ChannelEvent.chanWrite [Char.ofNat 0]])
      else
        (SSH_OK, { scp with state := ScpState.readInited },
         [ChannelEvent.chanWrite [Char.ofNat 0]])

/-- Model of `ssh_scp_read` (scp.c:435-463): auto-accepts a pending file request,
clamps the requested size to the remaining declared size (the guard and the
subtraction are `size_t` arithmetic, wrapping modulo `2 ^ 64`, so a huge
`size` wraps the sum past the remaining-size clamp) and then to 65536,
reads, accumulates `processed` (modulo `2 ^ 64`), and when
`processed == filelen` resets the counters and returns to
`SSH_SCP_READ_INITED`.  Returns the number of bytes
read.  `acceptWres` is the `channel_write` outcome of the embedded accept,
`rres` the data `channel_read` outcome (`none` = `SSH_ERROR`, `some r` =
`r` bytes). -/
def ssh_scp_read (scp : Scp) (size : Nat) (acceptWres rres : Option Nat) :
    Outcome :=
  let step1 : Outcome :=
    if scp.state = ScpState.readRequested ∧
       scp.request_type = some RequestType.newFile then
      ssh_scp_accept_request scp acceptWres
    else (SSH_OK, scp, [])
  if step1.1 = SSH_ERROR then step1
  else
    let scp := step1.2.1
    let ev0 := step1.2.2
    if scp.state ≠ ScpState.readReading then
      (SSH_ERROR, scp, ev0)
    else
      let size := if addSizeT scp.processed size > scp.filelen
                  then subSizeT scp.filelen scp.processed else size
      let size := if size > 65536 then 65536 else size
      let events := ev0 ++ [ChannelEvent.chanRead size]
      match rres with
      | none => (SSH_ERROR, { scp with state := ScpState.error }, events)
      | some r =>
        let scp := { scp with processed := addSizeT scp.processed r }
        if scp.processed = scp.filelen then
          ((r : Int),
           { scp with processed := 0, filelen := 0, state := ScpState.readInited },
           events)
        else
          ((r : Int), scp, events)

/-- Model of `ssh_scp_close` (scp.c:100-115): sends EOF and closes when a channel is
open, then resets the state to `SSH_SCP_NEW`. -/
def ssh_scp_close (scp : Scp) (eofOk closeOk : Bool) : Outcome :=
  if scp.channelOpen then
    if eofOk = false then
      (SSH_ERROR, { scp with state := ScpState.error }, [])
    else if closeOk = false then
      (SSH_ERROR, { scp with state := ScpState.error }, [])
    else
      (SSH_OK, { scp with channelOpen := false, state := ScpState.new }, [])
  else
    (SSH_OK, { scp with state := ScpState.new }, [])

/-- A live session in the given state with zeroed counters, for concrete
witnesses. -/
def sampleScp (st : ScpState) : Scp :=
  { mode := SSH_SCP_READ, location := "/tmp/src", channelOpen := true,
    state := st, filelen := 0, processed := 0, request_mode := none,
    request_name := none, request_type := none }

/-- A session holding a pending pull request of the given kind and size. -/
def sampleReq (k : RequestType) (sz : Nat) : Scp :=
  { sampleScp ScpState.readRequested with
      filelen := sz, request_type := some k,
      request_mode := some ['0', '6', '4', '4'],
      request_name := some ['x'] }

/-- A push session mid-transfer: declared size `S`, `p` bytes processed. -/
def sampleWriter (S p : Nat) : Scp :=
  { mode := SSH_SCP_WRITE, location := "/tmp/dst", channelOpen := true,
    state := ScpState.writeWriting, filelen := S, processed := p,
    request_mode := none, request_name := none, request_type := none }

/-- The session record `ssh_scp_new` hands back on full success. -/
def freshScp (mode : Int) (loc : String) : Scp :=
  { mode := mode, location := loc, channelOpen := false, state := ScpState.new,
    filelen := 0, processed := 0, request_mode := none, request_name := none,
    request_type := none }

/-- A permission string longer than the 1024-byte line buffer can hold. -/
def longPerms : List Char := List.replicate 1023 '7'

lemma read_string_loop_exhaust (stream : List Char) :
    ∀ fuel err acc, stream.length < fuel → '\n' ∉ stream →
      read_string_loop fuel stream err acc = (SSH_ERROR, acc ++ stream) := by
  induction stream with
  | nil =>
    intro fuel err acc hlt _
    cases fuel with
    | zero => omega
    | succ k => simp [read_string_loop]
  | cons b rest ih =>
    intro fuel err acc hlt hnl
    cases fuel with
    | zero => simp at hlt
    | succ k =>
      have hb : b ≠ '\n' := fun hb => hnl (hb ▸ List.mem_cons_self b rest)
      have hrest : '\n' ∉ rest := fun hm => hnl (List.mem_cons_of_mem b hm)
      simp only [read_string_loop, if_neg hb]
      rw [ih k 1 (acc ++ [b]) (by simpa using hlt) hrest]
      simp

lemma read_string_loop_full (stream : List Char) :
    ∀ fuel err acc, 0 < fuel → fuel ≤ stream.length → '\n' ∉ stream.take fuel →
      read_string_loop fuel stream err acc = (1, acc ++ stream.take fuel) := by
  induction stream with
  | nil =>
    intro fuel err acc hpos hle _
    simp at hle
    omega
  | cons b rest ih =>
    intro fuel err acc hpos hle hnl
    cases fuel with
    | zero => omega
    | succ k =>
      have hb : b ≠ '\n' := by
        intro hb
        exact hnl (by simp [List.take, hb])
      simp only [read_string_loop, if_neg hb]
      cases k with
      | zero => simp [read_string_loop]
      | succ m =>
        rw [ih (m + 1) 1 (acc ++ [b]) (Nat.succ_pos m) (by simpa using hle)
            (by simpa using fun hm => hnl (List.mem_cons_of_mem b hm))]
        simp

lemma clamp_eq_min (p S l : Nat) (h : p ≤ S) :
    (if p + l > S then S - p else l) = min l (S - p) := by
  split <;> omega

lemma cap65536_eq_min (a : Nat) : (if a > 65536 then 65536 else a) = min a 65536 := by
  split <;> omega

lemma addSizeT_eq (a b : Nat) (h : a + b < SIZE_T_MOD) : addSizeT a b = a + b :=
  Nat.mod_eq_of_lt h

lemma subSizeT_eq (a b : Nat) (hba : b ≤ a) (ha : a < SIZE_T_MOD) :
    subSizeT a b = a - b := by
  have hb : b % SIZE_T_MOD = b := Nat.mod_eq_of_lt (lt_of_le_of_lt hba ha)
  rw [subSizeT, hb]
  have hM : SIZE_T_MOD = 18446744073709551616 := rfl
  rw [hM] at ha ⊢
  omega

lemma push_directory_event (scp : Scp) (name perms : List Char) (w sb : Nat)
    (hst : scp.state = ScpState.writeInited) :
    (ssh_scp_push_directory scp name perms (some w) sb).2.2.head? =
      some (ChannelEvent.chanWrite (snprintfBuf 1024
        (('D' :: perms) ++ [' ', '0', ' '] ++ ssh_basename name ++ ['
']))) := by
  by_cases hsb : sb = 0 <;> simp [ssh_scp_push_directory, hst, hsb, snprintfBuf]

lemma push_file_event (scp : Scp) (name : List Char) (size : Nat)
    (perms : List Char) (w sb : Nat) (hst : scp.state = ScpState.writeInited) :
    (ssh_scp_push_file scp name size perms (some w) sb).2.2.head? =
      some (ChannelEvent.chanWrite (snprintfBuf 1024
        (('C' :: perms) ++ (' ' :: (Nat.repr size).toList) ++
          (' ' :: ssh_basename name) ++ ['
']))) := by
  by_cases hsb : sb = 0 <;> simp [ssh_scp_push_file, hst, hsb, snprintfBuf]

lemma splitFirst_sound (c : Char) :
    ∀ (l pre post : List Char), splitFirst c l = some (pre, post) →
      l = pre ++ c :: post ∧ c ∉ pre := by
  intro l
  induction l with
  | nil => intro pre post h; simp [splitFirst] at h
  | cons x xs ih =>
    intro pre post h
    by_cases hx : x = c
    · rw [splitFirst, if_pos hx] at h
      simp only [Option.some.injEq, Prod.mk.injEq] at h
      obtain ⟨h1, h2⟩ := h
      subst h1
      subst h2
      subst hx
      exact ⟨rfl, List.not_mem_nil x⟩
    · rcases hs : splitFirst c xs with _ | ⟨l1, r1⟩
      · rw [splitFirst, if_neg hx, hs] at h
        exact absurd h (by simp)
      · rw [splitFirst, if_neg hx, hs] at h
        simp only [Option.some.injEq, Prod.mk.injEq] at h
        obtain ⟨h1, h2⟩ := h
        obtain ⟨hxs, hnc⟩ := ih l1 r1 hs
        subst h2
        refine ⟨?_, ?_⟩
        · rw [← h1, hxs]
          simp
        · rw [← h1]
          intro hm
          rcases List.mem_cons.mp hm with hh | hh
          · exact hx hh.symm
          · exact hnc hh

/-- C1 counterexample: `ssh_scp_deny_request` invoked in its precondition
state `ReadRequested` with the channel write failing returns `SSH_ERROR`,
yet the session state is still `ReadRequested`, not `Error`
(scp.c:396-398 returns without touching `scp->state`). -/
theorem c1_counterexample_deny_failure_not_error :
    (ssh_scp_deny_request (sampleReq RequestType.newFile 10) ['n', 'o'] none).1
      = SSH_ERROR ∧
    (ssh_scp_deny_request (sampleReq RequestType.newFile 10) ['n', 'o'] none).2.1.state
      ≠ ScpState.error := by
  decide

/-- C1 amended: failures during initialize, enter/leave directory, begin
file push, write chunk, and the data-read step of read chunk do set the
state to `Error`; but failures of pull next request (decode, parse, or
unsupported line), of deny, of accept, and of the auto-accept step of read
chunk return `SSH_ERROR` with the session left exactly as it was, so the
state after those failures is the precondition state, not `Error`. -/
theorem c1_amended_failure_state_policy :
    (∀ scp b1 b2 b3 sb, scp.state = ScpState.new →
      (ssh_scp_init scp b1 b2 b3 sb).1 = SSH_ERROR →
      (ssh_scp_init scp b1 b2 b3 sb).2.1.state = ScpState.error) ∧
    (∀ scp d p w sb, scp.state = ScpState.writeInited →
      (ssh_scp_push_directory scp d p w sb).1 = SSH_ERROR →
      (ssh_scp_push_directory scp d p w sb).2.1.state = ScpState.error) ∧
    (∀ scp w sb, scp.state = ScpState.writeInited →
      (ssh_scp_leave_directory scp w sb).1 = SSH_ERROR →
      (ssh_scp_leave_directory scp w sb).2.1.state = ScpState.error) ∧
    (∀ scp f sz p w sb, scp.state = ScpState.writeInited →
      (ssh_scp_push_file scp f sz p w sb).1 = SSH_ERROR →
      (ssh_scp_push_file scp f sz p w sb).2.1.state = ScpState.error) ∧
    (∀ scp len w, scp.state = ScpState.writeWriting →
      (ssh_scp_write scp len w).1 = SSH_ERROR →
      (ssh_scp_write scp len w).2.1.state = ScpState.error) ∧
    (∀ scp size, scp.state = ScpState.readReading →
      (ssh_scp_read scp size none none).2.1.state = ScpState.error) ∧
    (∀ scp stream, scp.state = ScpState.readInited →
      (ssh_scp_pull_request scp stream).1 = SSH_ERROR →
      (ssh_scp_pull_request scp stream).2.1 = scp) ∧
    (∀ scp reason, scp.state = ScpState.readRequested →
      (ssh_scp_deny_request scp reason none).1 = SSH_ERROR ∧
      (ssh_scp_deny_request scp reason none).2.1 = scp) ∧
    (∀ scp, scp.state = ScpState.readRequested →
      (ssh_scp_accept_request scp none).1 = SSH_ERROR ∧
      (ssh_scp_accept_request scp none).2.1 = scp) ∧
    (∀ scp size rres, scp.state = ScpState.readRequested →
      scp.request_type = some RequestType.newFile →
      (ssh_scp_read scp size none rres).1 = SSH_ERROR ∧
      (ssh_scp_read scp size none rres).2.1 = scp) := by
  refine ⟨?_, ?_, ?_, ?_, ?_, ?_, ?_, ?_, ?_, ?_⟩
  · intro scp b1 b2 b3 sb h hr
    cases b1 <;> cases b2 <;> cases b3 <;>
      by_cases hsb : sb = 0 <;>
      simp_all [ssh_scp_init, SSH_OK, SSH_ERROR]
  · intro scp d p w sb h hr
    cases w <;> by_cases hsb : sb = 0 <;>
      simp_all [ssh_scp_push_directory, SSH_OK, SSH_ERROR]
  · intro scp w sb h hr
    cases w <;> by_cases hsb : sb = 0 <;>
      simp_all [ssh_scp_leave_directory, SSH_OK, SSH_ERROR]
  · intro scp f sz p w sb h hr
    cases w <;> by_cases hsb : sb = 0 <;>
      simp_all [ssh_scp_push_file, SSH_OK, SSH_ERROR]
  · intro scp len w h hr
    cases w <;> simp_all [ssh_scp_write, SSH_OK, SSH_ERROR]
    split at hr <;> simp_all
  · intro scp size h
    simp [ssh_scp_read, h, SSH_OK, SSH_ERROR]
  · intro scp stream h hr
    by_cases hrs : (ssh_scp_read_string 4096 stream).1 = SSH_ERROR
    · simp [ssh_scp_pull_request, h, hrs]
    · cases hp : parse_control_line (ssh_scp_read_string 4096 stream).2 with
      | none => simp [ssh_scp_pull_request, h, hrs, hp]
      | some v =>
        exfalso
        obtain ⟨kind, mode, size, name⟩ := v
        by_cases hk : kind = 'C' <;>
          simp_all [ssh_scp_pull_request, SSH_ERROR, SSH_SCP_REQUEST_NEWFILE,
            SSH_SCP_REQUEST_NEWDIR]
  · intro scp reason h
    simp [ssh_scp_deny_request, h]
  · intro scp h
    simp [ssh_scp_accept_request, h]
  · intro scp size rres h ht
    simp [ssh_scp_read, ssh_scp_accept_request, h, ht, SSH_ERROR]

/-- C1 amended, witness: concrete failing calls — a push-file whose status
byte is nonzero ends in `Error`, while a failing deny leaves the session
untouched. -/
theorem c1_amended_witness :
    (ssh_scp_push_file (sampleScp ScpState.writeInited) ['f'] 5 ['0'] (some 8) 1).2.1.state
      = ScpState.error ∧
    (ssh_scp_deny_request (sampleReq RequestType.newFile 10) ['n'] none).2.1
      = sampleReq RequestType.newFile 10 := by
  exact ⟨c1_amended_failure_state_policy.2.2.2.1 _ _ _ _ _ 1 rfl (by decide),
         (c1_amended_failure_state_policy.2.2.2.2.2.2.2.1 _ _ rfl).2⟩

/-- C2 counterexample: with buffer limit `len = 2` and the stream delivering
`a`, `b`, `\n`, the single allowed byte `a` is consumed without seeing a
newline, yet the call returns 1 (the last `channel_read` result,
scp.c:299), which is not `SSH_ERROR`: the overlong line is reported as
success, not as an error. -/
theorem c2_counterexample_overlong_not_error :
    (ssh_scp_read_string 2 ['a', 'b', '\n']).1 ≠ SSH_ERROR ∧
    (ssh_scp_read_string 2 ['a', 'b', '\n']).2 = ['a'] := by
  decide

/-- C2 amended: for every buffer limit `len >= 2`, end-of-stream before a
newline and before `len - 1` bytes is reported as `SSH_ERROR` with the
partial content null-terminated in the buffer; but in the overlong-line
case (`len - 1` bytes consumed with no newline among them) the partial
content is null-terminated and the call returns the last successful read's
result 1 — callers comparing against `SSH_ERROR` see success, not an
error. -/
theorem c2_amended_read_string_outcomes (len : Nat) (stream : List Char)
    (hlen : 2 ≤ len) :
    (stream.length < len - 1 → '\n' ∉ stream →
      ssh_scp_read_string len stream = (SSH_ERROR, stream)) ∧
    (len - 1 ≤ stream.length → '\n' ∉ stream.take (len - 1) →
      ssh_scp_read_string len stream = (1, stream.take (len - 1)) ∧
      (1 : Int) ≠ SSH_ERROR) := by
  constructor
  · intro hlt hnl
    rw [ssh_scp_read_string, read_string_loop_exhaust stream (len - 1) SSH_OK [] hlt hnl]
    simp
  · intro hge hnl
    rw [ssh_scp_read_string,
      read_string_loop_full stream (len - 1) SSH_OK [] (by omega) hge hnl]
    simp [SSH_ERROR]

/-- C2 amended, witness: a stream ending after one byte is an error for
`len = 4`; a three-byte stream against `len = 3` is truncated to two bytes
and reported as success. -/
theorem c2_amended_witness :
    ssh_scp_read_string 4 ['q'] = (SSH_ERROR, ['q']) ∧
    ssh_scp_read_string 3 ['a', 'b', 'c'] = (1, ['a', 'b']) := by
  exact ⟨(c2_amended_read_string_outcomes 4 ['q'] (by decide)).1 (by decide) (by decide),
    ((c2_amended_read_string_outcomes 3 ['a', 'b', 'c'] (by decide)).2
      (by decide) (by decide)).1⟩

/-- C4: the code at the failing input.  Pulling the directory announcement
`D0755 0 sub\n` and accepting it returns the session to `ReadInited` with
`filelen = 48`: scp.c:357 executes `scp->filelen = '0';`, assigning the
character literal `'0'` (numeric value 48) where the spec requires the
counter reset to 0.  Denying a pending 10-byte file request likewise
reaches `ReadInited` with the stale `filelen = 10`. -/
theorem c4_bug_inited_counters_nonzero :
    ((ssh_scp_accept_request
        (ssh_scp_pull_request (sampleScp ScpState.readInited)
          ['D', '0', '7', '5', '5', ' ', '0', ' ', 's', 'u', 'b', '\n']).2.1
        (some 1)).2.1.state = ScpState.readInited ∧
      (ssh_scp_accept_request
        (ssh_scp_pull_request (sampleScp ScpState.readInited)
          ['D', '0', '7', '5', '5', ' ', '0', ' ', 's', 'u', 'b', '\n']).2.1
        (some 1)).2.1.filelen = 48) ∧
    ((ssh_scp_deny_request (sampleReq RequestType.newFile 10) ['n'] (some 1)).2.1.state
        = ScpState.readInited ∧
      (ssh_scp_deny_request (sampleReq RequestType.newFile 10) ['n'] (some 1)).2.1.filelen
        = 10) := by
  decide

/-- C9 counterexample: a successful chunk write that accepted 5 bytes
(the declared size is 10, so nothing is clamped, and `processed` advances
by 5) returns `SSH_OK = 0`, not 5 (scp.c:269). -/
theorem c9_counterexample_write_returns_zero :
    (ssh_scp_write (sampleWriter 10 0) 5 (some 5)).1 = SSH_OK ∧
    (ssh_scp_write (sampleWriter 10 0) 5 (some 5)).2.1.processed = 5 ∧
    (ssh_scp_write (sampleWriter 10 0) 5 (some 5)).1 ≠ (5 : Int) := by
  decide

/-- C9 amended: every successful write-chunk call returns `SSH_OK` (0)
whatever the number of bytes accepted; acceptance is visible only through
the `processed` counter, which advances by the channel's byte count `w`
in `size_t` arithmetic (and resets to 0 together with `filelen` when the
transfer completes). -/
theorem c9_amended_write_returns_ok (scp : Scp) (len w : Nat)
    (h : scp.state = ScpState.writeWriting) :
    (ssh_scp_write scp len (some w)).1 = SSH_OK ∧
    ((addSizeT scp.processed w ≠ scp.filelen ∧
        (ssh_scp_write scp len (some w)).2.1.processed = addSizeT scp.processed w) ∨
      (addSizeT scp.processed w = scp.filelen ∧
        (ssh_scp_write scp len (some w)).2.1.processed = 0)) := by
  by_cases hq : addSizeT scp.processed w = scp.filelen
  · exact ⟨by simp [ssh_scp_write, h, hq], Or.inr ⟨hq, by simp [ssh_scp_write, h, hq]⟩⟩
  · exact ⟨by simp [ssh_scp_write, h, hq], Or.inl ⟨hq, by simp [ssh_scp_write, h, hq]⟩⟩

/-- C9 amended, witness: writing 4 of 10 declared bytes returns 0 and
advances `processed` to 4. -/
theorem c9_amended_witness :
    (ssh_scp_write (sampleWriter 10 0) 4 (some 4)).1 = SSH_OK ∧
    ((addSizeT 0 4 ≠ 10 ∧
        (ssh_scp_write (sampleWriter 10 0) 4 (some 4)).2.1.processed = addSizeT 0 4) ∨
      (addSizeT 0 4 = 10 ∧
        (ssh_scp_write (sampleWriter 10 0) 4 (some 4)).2.1.processed = 0)) := by
  exact c9_amended_write_returns_ok (sampleWriter 10 0) 4 4 rfl

/-- C10: creating a session with a mode other than `SSH_SCP_WRITE` or
`SSH_SCP_READ` returns no session, and when the allocation had succeeded
the partially constructed object is released (scp.c:43-47); consequently
every session ever handed to a caller has one of the two legal modes. -/
theorem c10_new_mode_validation (allocOk strdupOk : Bool) (mode : Int)
    (loc : String) :
    (mode ≠ SSH_SCP_WRITE → mode ≠ SSH_SCP_READ →
      (ssh_scp_new allocOk strdupOk mode loc).scp = none ∧
      (allocOk = true → (ssh_scp_new allocOk strdupOk mode loc).freedPartial = true)) ∧
    (∀ s, (ssh_scp_new allocOk strdupOk mode loc).scp = some s →
      s.mode = SSH_SCP_WRITE ∨ s.mode = SSH_SCP_READ) := by
  constructor
  · intro h1 h2
    cases allocOk <;> simp [ssh_scp_new, h1, h2]
  · intro s hs
    cases allocOk with
    | false => simp [ssh_scp_new] at hs
    | true =>
      by_cases hm : mode ≠ SSH_SCP_WRITE ∧ mode ≠ SSH_SCP_READ
      · simp [ssh_scp_new, hm] at hs
      · cases strdupOk with
        | false => simp [ssh_scp_new, hm] at hs
        | true =>
          have hsm : s.mode = mode := by
            simp [ssh_scp_new, hm] at hs
            simp [← hs]
          rw [hsm]
          rcases not_and_or.mp hm with h | h
          · exact Or.inl (not_not.mp h)
          · exact Or.inr (not_not.mp h)

/-- C10 witness: mode 5 yields no session and frees the partial object;
mode `SSH_SCP_READ` yields a session whose mode is legal. -/
theorem c10_witness :
    ((ssh_scp_new true true 5 "loc").scp = none ∧
      (true = true → (ssh_scp_new true true 5 "loc").freedPartial = true)) ∧
    ((freshScp SSH_SCP_READ "loc").mode = SSH_SCP_WRITE ∨
      (freshScp SSH_SCP_READ "loc").mode = SSH_SCP_READ) := by
  exact ⟨(c10_new_mode_validation true true 5 "loc").1 (by decide) (by decide),
    (c10_new_mode_validation true true SSH_SCP_READ "loc").2
      (freshScp SSH_SCP_READ "loc") (by decide)⟩

/-- C3 counterexample: the clamps are `size_t` arithmetic.  With 5 of 10
declared bytes processed, a chunk request of `SIZE_T_MOD - 3` bytes (the
representable `size_t` value `SIZE_MAX - 2`) wraps the sum at scp.c:241 to
2, the clamp is skipped, and all `SIZE_T_MOD - 3` bytes are handed to the
channel — far more than the remaining `10 - 5`; the matching pull read
wraps past the remaining-size clamp at scp.c:446 and issues a 65536-byte
channel read against the 5 remaining bytes. -/
theorem c3_counterexample_wrap_skips_clamp :
    ((ssh_scp_write (sampleWriter 10 5) (SIZE_T_MOD - 3) (some 0)).2.2 =
        [ChannelEvent.chanPoll, ChannelEvent.chanWriteData (SIZE_T_MOD - 3)] ∧
      ¬(SIZE_T_MOD - 3 ≤ 10 - 5)) ∧
    ((ssh_scp_read
          { sampleScp ScpState.readReading with filelen := 10, processed := 5 }
          (SIZE_T_MOD - 3) none (some 0)).2.2 =
        [ChannelEvent.chanRead 65536] ∧
      ¬(65536 ≤ 10 - 5)) := by
  decide

/-- C3 amended: provided the `size_t` sum `processed + request` does not
wrap (it stays below `2 ^ 64`), the push chunk handed to the channel is
exactly `min len (filelen - processed)` bytes (scp.c:241-242) — never more
than the remaining declared size — and the pull read request is exactly
`min (min size (filelen - processed)) 65536` bytes (scp.c:446-449); when
the sum wraps, the remaining-size clamp is skipped (the write hands all
`len` bytes, the read is capped only at 65536).  In both directions, the
moment `processed` reaches the declared size the counters reset to `(0, 0)`
and the state returns to the mode's Inited state (scp.c:254-268, 457-461),
with no further channel exchange beyond the data transfer itself (the event
lists are exactly the data operations); and a channel that accepts at most
the clamped length preserves `processed ≤ filelen`, so within the no-wrap
regime the bound holds across any sequence of calls. -/
theorem c3_amended_chunk_clamp_and_reset (scp : Scp) (len w size r : Nat)
    (hinv : scp.processed ≤ scp.filelen) (hflen : scp.filelen < SIZE_T_MOD) :
    (scp.state = ScpState.writeWriting →
      scp.processed + len < SIZE_T_MOD →
      (ssh_scp_write scp len (some w)).2.2 =
        [ChannelEvent.chanPoll,
         ChannelEvent.chanWriteData (min len (scp.filelen - scp.processed))]) ∧
    (scp.state = ScpState.writeWriting → scp.processed + w = scp.filelen →
      (ssh_scp_write scp len (some w)).2.1.processed = 0 ∧
      (ssh_scp_write scp len (some w)).2.1.filelen = 0 ∧
      (ssh_scp_write scp len (some w)).2.1.state = ScpState.writeInited) ∧
    (scp.state = ScpState.writeWriting →
      w ≤ min len (scp.filelen - scp.processed) →
      (ssh_scp_write scp len (some w)).2.1.processed ≤
        (ssh_scp_write scp len (some w)).2.1.filelen) ∧
    (scp.state = ScpState.readReading →
      scp.processed + size < SIZE_T_MOD →
      (ssh_scp_read scp size none (some r)).2.2 =
        [ChannelEvent.chanRead (min (min size (scp.filelen - scp.processed)) 65536)]) ∧
    (scp.state = ScpState.readReading → scp.processed + r = scp.filelen →
      (ssh_scp_read scp size none (some r)).2.1.processed = 0 ∧
      (ssh_scp_read scp size none (some r)).2.1.filelen = 0 ∧
      (ssh_scp_read scp size none (some r)).2.1.state = ScpState.readInited) ∧
    (scp.state = ScpState.readReading →
      r ≤ min (min size (scp.filelen - scp.processed)) 65536 →
      (ssh_scp_read scp size none (some r)).2.1.processed ≤
        (ssh_scp_read scp size none (some r)).2.1.filelen) := by
  refine ⟨?_, ?_, ?_, ?_, ?_, ?_⟩
  · intro h hlen
    by_cases hq : addSizeT scp.processed w = scp.filelen <;>
      simp [ssh_scp_write, h, hq, addSizeT_eq scp.processed len hlen,
        subSizeT_eq scp.filelen scp.processed hinv hflen,
        clamp_eq_min scp.processed scp.filelen len hinv, SSH_OK, SSH_ERROR]
  · intro h hq
    have haw : addSizeT scp.processed w = scp.processed + w :=
      addSizeT_eq scp.processed w (by omega)
    simp [ssh_scp_write, h, haw, hq, SSH_OK, SSH_ERROR]
  · intro h hw
    have haw : addSizeT scp.processed w = scp.processed + w :=
      addSizeT_eq scp.processed w (by omega)
    by_cases hq : scp.processed + w = scp.filelen <;>
      simp [ssh_scp_write, h, haw, hq, SSH_OK, SSH_ERROR]
    omega
  · intro h hsize
    by_cases hq : addSizeT scp.processed r = scp.filelen <;>
      simp [ssh_scp_read, h, hq, addSizeT_eq scp.processed size hsize,
        subSizeT_eq scp.filelen scp.processed hinv hflen,
        clamp_eq_min scp.processed scp.filelen size hinv,
        cap65536_eq_min, SSH_OK, SSH_ERROR] <;>
      split <;> omega
  · intro h hq
    have haw : addSizeT scp.processed r = scp.processed + r :=
      addSizeT_eq scp.processed r (by omega)
    simp [ssh_scp_read, h, haw, hq, SSH_OK, SSH_ERROR]
  · intro h hr
    have haw : addSizeT scp.processed r = scp.processed + r :=
      addSizeT_eq scp.processed r (by omega)
    by_cases hq : scp.processed + r = scp.filelen <;>
      simp [ssh_scp_read, h, haw, hq, SSH_OK, SSH_ERROR]
    omega

/-- C3 amended, witness: with 8 of 10 declared bytes remaining, a 100-byte
write request hands exactly 8 bytes to the channel and, the channel
accepting all 8, the session resets to `WriteInited` with zero counters; a
pull session with 7 remaining serves a 100000-byte read request as a 7-byte
channel read. -/
theorem c3_amended_witness :
    (ssh_scp_write (sampleWriter 10 2) 100 (some 8)).2.2 =
      [ChannelEvent.chanPoll, ChannelEvent.chanWriteData (min 100 (10 - 2))] ∧
    (ssh_scp_write (sampleWriter 10 2) 100 (some 8)).2.1.processed = 0 ∧
    (ssh_scp_write (sampleWriter 10 2) 100 (some 8)).2.1.state
      = ScpState.writeInited ∧
    (ssh_scp_read { sampleScp ScpState.readReading with filelen := 7 } 100000
        none (some 3)).2.2 =
      [ChannelEvent.chanRead (min (min 100000 (7 - 0)) 65536)] := by
  refine ⟨?_, ?_, ?_, ?_⟩
  · exact (c3_amended_chunk_clamp_and_reset (sampleWriter 10 2) 100 8 0 0
      (by decide) (by decide)).1 rfl (by decide)
  · exact ((c3_amended_chunk_clamp_and_reset (sampleWriter 10 2) 100 8 0 0
      (by decide) (by decide)).2.1 rfl (by decide)).1
  · exact ((c3_amended_chunk_clamp_and_reset (sampleWriter 10 2) 100 8 0 0
      (by decide) (by decide)).2.1 rfl (by decide)).2.2
  · exact (c3_amended_chunk_clamp_and_reset
      { sampleScp ScpState.readReading with filelen := 7 } 0 0 100000 3
      (by decide) (by decide)).2.2.2.1 rfl (by decide)

/-- C5: every operation invoked in any state other than its documented
precondition state (for read chunk: `ReadReading`, or `ReadRequested` with
a pending file request) returns `SSH_ERROR` immediately, leaves the session
untouched, and performs no channel I/O (the event list is empty).  Since
`Error` is no operation's precondition state, once the session is in
`Error` every operation other than close/free fails immediately without
attempting I/O. -/
theorem c5_state_preconditions_no_io :
    (∀ scp b1 b2 b3 sb, scp.state ≠ ScpState.new →
      ssh_scp_init scp b1 b2 b3 sb = (SSH_ERROR, scp, [])) ∧
    (∀ scp d p w sb, scp.state ≠ ScpState.writeInited →
      ssh_scp_push_directory scp d p w sb = (SSH_ERROR, scp, [])) ∧
    (∀ scp w sb, scp.state ≠ ScpState.writeInited →
      ssh_scp_leave_directory scp w sb = (SSH_ERROR, scp, [])) ∧
    (∀ scp f sz p w sb, scp.state ≠ ScpState.writeInited →
      ssh_scp_push_file scp f sz p w sb = (SSH_ERROR, scp, [])) ∧
    (∀ scp len w, scp.state ≠ ScpState.writeWriting →
      ssh_scp_write scp len w = (SSH_ERROR, scp, [])) ∧
    (∀ scp stream, scp.state ≠ ScpState.readInited →
      ssh_scp_pull_request scp stream = (SSH_ERROR, scp, [])) ∧
    (∀ scp reason w, scp.state ≠ ScpState.readRequested →
      ssh_scp_deny_request scp reason w = (SSH_ERROR, scp, [])) ∧
    (∀ scp w, scp.state ≠ ScpState.readRequested →
      ssh_scp_accept_request scp w = (SSH_ERROR, scp, [])) ∧
    (∀ scp size aw rw, scp.state ≠ ScpState.readReading →
      ¬(scp.state = ScpState.readRequested ∧
        scp.request_type = some RequestType.newFile) →
      ssh_scp_read scp size aw rw = (SSH_ERROR, scp, [])) := by
  refine ⟨?_, ?_, ?_, ?_, ?_, ?_, ?_, ?_, ?_⟩
  · intro scp b1 b2 b3 sb h
    simp [ssh_scp_init, h]
  · intro scp d p w sb h
    simp [ssh_scp_push_directory, h]
  · intro scp w sb h
    simp [ssh_scp_leave_directory, h]
  · intro scp f sz p w sb h
    simp [ssh_scp_push_file, h]
  · intro scp len w h
    simp [ssh_scp_write, h]
  · intro scp stream h
    simp [ssh_scp_pull_request, h]
  · intro scp reason w h
    simp [ssh_scp_deny_request, h]
  · intro scp w h
    simp [ssh_scp_accept_request, h]
  · intro scp size aw rw h hna
    simp [ssh_scp_read, hna, h, SSH_OK, SSH_ERROR]

/-- C5 witness: on a session in the `Error` state, a chunk write and a pull
request both fail with no channel action and no change to the session. -/
theorem c5_witness :
    ssh_scp_write (sampleScp ScpState.error) 5 (some 5)
      = (SSH_ERROR, sampleScp ScpState.error, []) ∧
    ssh_scp_pull_request (sampleScp ScpState.error) ['C']
      = (SSH_ERROR, sampleScp ScpState.error, []) := by
  exact ⟨c5_state_preconditions_no_io.2.2.2.2.1 (sampleScp ScpState.error) 5
      (some 5) (by decide),
    c5_state_preconditions_no_io.2.2.2.2.2.1 (sampleScp ScpState.error) ['C']
      (by decide)⟩

/-- C6: read chunk called in `ReadRequested` with a pending `NewFile`
request first performs the accept step — the single byte `0x00` is written
and the session reaches `ReadReading` — and then behaves exactly as a read
from the accepted session (its events prefixed by the accept's write);
called in `ReadRequested` with a pending `NewDirectory` request it does not
auto-accept and fails as a state violation, with no channel I/O. -/
theorem c6_auto_accept_file_only (scp : Scp) (size w : Nat) (rres : Option Nat)
    (hst : scp.state = ScpState.readRequested) :
    (scp.request_type = some RequestType.newFile →
      (ssh_scp_accept_request scp (some w)).2.1.state = ScpState.readReading ∧
      ssh_scp_read scp size (some w) rres =
        ((ssh_scp_read (ssh_scp_accept_request scp (some w)).2.1 size none rres).1,
         (ssh_scp_read (ssh_scp_accept_request scp (some w)).2.1 size none rres).2.1,
         ChannelEvent.chanWrite [Char.ofNat 0] ::
           (ssh_scp_read (ssh_scp_accept_request scp (some w)).2.1 size none rres).2.2)) ∧
    (scp.request_type = some RequestType.newDir →
      ssh_scp_read scp size (some w) rres = (SSH_ERROR, scp, [])) := by
  constructor
  · intro hty
    constructor
    · simp [ssh_scp_accept_request, hst, hty]
    · cases rres with
      | none =>
        simp [ssh_scp_read, ssh_scp_accept_request, hst, hty, SSH_OK, SSH_ERROR]
      | some r =>
        by_cases hq : addSizeT scp.processed r = scp.filelen <;>
          simp [ssh_scp_read, ssh_scp_accept_request, hst, hty, hq, SSH_OK, SSH_ERROR]
  · intro hty
    simp [ssh_scp_read, ssh_scp_accept_request, hst, hty, SSH_OK, SSH_ERROR]

/-- C6 witness: reading 3 of a pending 7-byte file request auto-accepts
(the `0x00` byte precedes the data read in the event list) and lands in
`ReadReading`; reading against a pending directory request fails without
I/O. -/
theorem c6_witness :
    (ssh_scp_accept_request (sampleReq RequestType.newFile 7) (some 1)).2.1.state
      = ScpState.readReading ∧
    ssh_scp_read (sampleReq RequestType.newDir 7) 3 (some 1) (some 3)
      = (SSH_ERROR, sampleReq RequestType.newDir 7, []) := by
  exact ⟨((c6_auto_accept_file_only (sampleReq RequestType.newFile 7) 3 1 (some 3)
      rfl).1 (by decide)).1,
    (c6_auto_accept_file_only (sampleReq RequestType.newDir 7) 3 1 (some 3)
      rfl).2 (by decide)⟩

/-- C7 counterexample: with a 1023-character permission string the
formatted directory line (1029 bytes) no longer fits the 1024-byte
`snprintf` buffer (scp.c:136, 145), so the bytes handed to the channel are
the first 1023 characters — not the claimed exact line
`D<perms> 0 <basename>\n` (the trailing newline is lost, among others). -/
theorem c7_counterexample_truncated_line :
    (ssh_scp_push_directory (sampleScp ScpState.writeInited) ['d'] longPerms
        (some 1) 0).2.2 ≠
      [ChannelEvent.chanWrite
        (('D' :: longPerms) ++ [' ', '0', ' '] ++ ['d'] ++ ['\n']),
       ChannelEvent.chanRead 1] := by
  intro hcontra
  have h1 : (ssh_scp_push_directory (sampleScp ScpState.writeInited) ['d'] longPerms
      (some 1) 0).2.2 =
      [ChannelEvent.chanWrite
        ((('D' :: longPerms) ++ [' ', '0', ' '] ++ ['d'] ++ ['\n']).take 1023),
       ChannelEvent.chanRead 1] := rfl
  rw [h1] at hcontra
  simp only [List.cons.injEq, and_true, ChannelEvent.chanWrite.injEq] at hcontra
  have hlen := congrArg List.length hcontra
  rw [List.length_take] at hlen
  simp only [longPerms, List.length_cons, List.length_append,
    List.length_replicate, List.length_nil] at hlen
  omega

/-- C7 amended: whenever the formatted control line fits the 1024-byte
buffer (length at most 1023), enter directory hands the channel exactly
`D<perms> 0 <basename>\n`, begin file push exactly
`C<perms> <decimal-size> <basename>\n`, and leave directory always exactly
`E\n`, with `<basename>` the final path component of the caller-supplied
name and `<perms>` passed through unmodified; a longer formatted line is
truncated to its first 1023 bytes by `snprintf`. -/
theorem c7_amended_control_line_bytes (scp : Scp) (name perms : List Char)
    (size sb w : Nat) (hst : scp.state = ScpState.writeInited) :
    ((('D' :: perms) ++ [' ', '0', ' '] ++ ssh_basename name ++ ['\n']).length ≤ 1023 →
      (ssh_scp_push_directory scp name perms (some w) sb).2.2.head? =
        some (ChannelEvent.chanWrite
          (('D' :: perms) ++ [' ', '0', ' '] ++ ssh_basename name ++ ['\n']))) ∧
    ((('C' :: perms) ++ (' ' :: (Nat.repr size).toList) ++
        (' ' :: ssh_basename name) ++ ['\n']).length ≤ 1023 →
      (ssh_scp_push_file scp name size perms (some w) sb).2.2.head? =
        some (ChannelEvent.chanWrite
          (('C' :: perms) ++ (' ' :: (Nat.repr size).toList) ++
            (' ' :: ssh_basename name) ++ ['\n']))) ∧
    (ssh_scp_leave_directory scp (some w) sb).2.2.head? =
      some (ChannelEvent.chanWrite ['E', '\n']) := by
  refine ⟨?_, ?_, ?_⟩
  · intro hfit
    rw [push_directory_event scp name perms w sb hst]
    simp only [snprintfBuf]
    rw [List.take_of_length_le
      (by omega :
        (('D' :: perms) ++ [' ', '0', ' '] ++ ssh_basename name ++ ['
']).length
          ≤ 1024 - 1)]
  · intro hfit
    rw [push_file_event scp name size perms w sb hst]
    simp only [snprintfBuf]
    rw [List.take_of_length_le
      (by omega :
        (('C' :: perms) ++ (' ' :: (Nat.repr size).toList) ++
          (' ' :: ssh_basename name) ++ ['
']).length ≤ 1024 - 1)]
  · by_cases hsb : sb = 0 <;> simp [ssh_scp_leave_directory, hst, hsb]

/-- C7 amended, witness: pushing the file `a/b/c.txt` of size 1234 with
permissions `0644` hands the channel exactly `C0644 1234 c.txt\n` — the
directory components of the path are stripped. -/
theorem c7_amended_witness :
    (ssh_scp_push_file (sampleScp ScpState.writeInited)
        ['a', '/', 'b', '/', 'c', '.', 't', 'x', 't'] 1234
        ['0', '6', '4', '4'] (some 1) 0).2.2.head? =
      some (ChannelEvent.chanWrite
        ['C', '0', '6', '4', '4', ' ', '1', '2', '3', '4', ' ',
         'c', '.', 't', 'x', 't', '\n']) := by
  have h := (c7_amended_control_line_bytes (sampleScp ScpState.writeInited)
    ['a', '/', 'b', '/', 'c', '.', 't', 'x', 't'] ['0', '6', '4', '4']
    1234 0 1 rfl).2.1 (by decide)
  simpa using h

/-- C8: a pull request call in `ReadInited` either fails with the session
left exactly as it was — no pending request recorded — or succeeds, and
success forces the decoded control line to be well formed: a leading `C` or
`D`, a first space, a second space, and a terminating newline, in that
order, with the pending request recorded from its pieces.  Contrapositively,
a line with any other leading byte (e.g. `T`) or with a missing separator is
rejected with an error and records nothing — it is never silently skipped
or accepted. -/
theorem c8_pull_request_rejects_malformed (scp : Scp) (stream : List Char)
    (hst : scp.state = ScpState.readInited) :
    ((ssh_scp_pull_request scp stream).1 = SSH_ERROR →
      (ssh_scp_pull_request scp stream).2.1 = scp) ∧
    ((ssh_scp_pull_request scp stream).1 ≠ SSH_ERROR →
      ∃ kind perms sz name rest,
        (ssh_scp_read_string 4096 stream).2 =
          kind :: (perms ++ ' ' :: (sz ++ ' ' :: (name ++ '\n' :: rest))) ∧
        (kind = 'C' ∨ kind = 'D') ∧ ' ' ∉ perms ∧ ' ' ∉ sz ∧ '\n' ∉ name ∧
        (ssh_scp_pull_request scp stream).2.1.state = ScpState.readRequested ∧
        (ssh_scp_pull_request scp stream).2.1.request_name = some name ∧
        (ssh_scp_pull_request scp stream).2.1.request_mode = some perms) := by
  constructor
  · intro hr
    by_cases hrs : (ssh_scp_read_string 4096 stream).1 = SSH_ERROR
    · simp [ssh_scp_pull_request, hst, hrs]
    · cases hp : parse_control_line (ssh_scp_read_string 4096 stream).2 with
      | none => simp [ssh_scp_pull_request, hst, hrs, hp]
      | some v =>
        exfalso
        obtain ⟨kind, mode, size, name⟩ := v
        by_cases hk : kind = 'C' <;>
          simp_all [ssh_scp_pull_request, SSH_ERROR, SSH_SCP_REQUEST_NEWFILE,
            SSH_SCP_REQUEST_NEWDIR]
  · intro hne
    by_cases hrs : (ssh_scp_read_string 4096 stream).1 = SSH_ERROR
    · exact absurd (by simp [ssh_scp_pull_request, hst, hrs]) hne
    · cases hp : parse_control_line (ssh_scp_read_string 4096 stream).2 with
      | none => exact absurd (by simp [ssh_scp_pull_request, hst, hrs, hp]) hne
      | some v =>
        obtain ⟨kind, mode, size, name⟩ := v
        rcases hline : (ssh_scp_read_string 4096 stream).2 with _ | ⟨c, tail⟩
        · rw [hline] at hp
          simp [parse_control_line] at hp
        · have hp0 := hp
          rw [hline] at hp
          by_cases hcd : c = 'C' ∨ c = 'D'
          · rcases h1 : splitFirst ' ' (c :: tail) with _ | ⟨first, after1⟩
            · simp [parse_control_line, if_pos hcd, h1] at hp
            · rcases h2 : splitFirst ' ' after1 with _ | ⟨szf, after2⟩
              · simp [parse_control_line, if_pos hcd, h1, h2] at hp
              · rcases h3 : splitFirst '\n' after2 with _ | ⟨nm, rest⟩
                · simp [parse_control_line, if_pos hcd, h1, h2, h3] at hp
                · simp only [parse_control_line, if_pos hcd, h1, h2, h3,
                    Option.some.injEq, Prod.mk.injEq] at hp
                  obtain ⟨hpk, hpm, hps, hpn⟩ := hp
                  obtain ⟨he1, hn1⟩ := splitFirst_sound ' ' (c :: tail) first after1 h1
                  obtain ⟨he2, hn2⟩ := splitFirst_sound ' ' after1 szf after2 h2
                  obtain ⟨he3, hn3⟩ := splitFirst_sound '\n' after2 nm rest h3
                  have hcsp : c ≠ ' ' := by
                    rcases hcd with hh | hh <;> subst hh <;> decide
                  rcases hfirst : first with _ | ⟨f, fs⟩
                  · rw [hfirst] at he1
                    simp only [List.nil_append, List.cons.injEq] at he1
                    exact absurd he1.1 hcsp
                  · rw [hfirst] at he1 hn1 hpm
                    simp only [List.cons_append, List.cons.injEq] at he1
                    obtain ⟨hfc, htail⟩ := he1
                    simp only [List.drop_succ_cons, List.drop_zero] at hpm
                    subst hpk
                    subst hpm
                    subst hpn
                    refine ⟨c, fs, szf, nm, rest, ?_, hcd, ?_, hn2, hn3, ?_, ?_, ?_⟩
                    · rw [htail, he2, he3]
                    · intro hm
                      exact hn1 (List.mem_cons_of_mem f hm)
                    · by_cases hk : c = 'C' <;>
                        simp [ssh_scp_pull_request, hst, hrs, hp0, hk]
                    · by_cases hk : c = 'C' <;>
                        simp [ssh_scp_pull_request, hst, hrs, hp0, hk]
                    · by_cases hk : c = 'C' <;>
                        simp [ssh_scp_pull_request, hst, hrs, hp0, hk]
          · simp [parse_control_line, if_neg hcd] at hp

/-- C8 witness: the malformed control line `Xg\n` is rejected and the
session is left exactly as it was. -/
theorem c8_witness :
    (ssh_scp_pull_request (sampleScp ScpState.readInited) ['X', 'g', '\n']).2.1
      = sampleScp ScpState.readInited := by
  exact (c8_pull_request_rejects_malformed (sampleScp ScpState.readInited)
    ['X', 'g', '\n'] rfl).1 (by decide)

end LibsshScp
